import Mathlib

/-!
# Verification of the midiaapiv1 job-orchestration and media-assembly pipeline

Shallow embedding of the parts of the repository the frozen claims are about:

* `src/db/database.py` — the job ledger (`update_job_status`, job rows);
* `src/tasks/tasks.py` — the Celery task bodies, modelled as the sequence of
  ledger writes they perform given the outcomes of their collaborators;
* `src/storage/minio_client.py` — credential cache (`MinioCredentials`,
  `get_minio_client` under `functools.lru_cache`) and `upload_file` under the
  tenacity `retry` decorator;
* `src/video/editor.py` — the scene compositor (`render_scene`,
  `create_video_from_scenes`).

Conventions: Python floats that carry durations/timestamps are embedded as `ℚ`;
`None`-able values as `Option`; a raised exception as the `Except.error` branch
of an `Except` result.  Collaborator outcomes (generator success/failure, MinIO
server responses, file existence, the intrinsic length of an audio file) are
environment parameters, since the source calls out to them.  Configuration
scalars are taken from `config.py` (`MINIO_CONFIG`) and passed explicitly.
Purely presentational operations that cannot affect control flow, durations or
stored state (image resizing, text styling, element positioning, audio volume)
are abstracted away.
-/

namespace MidiaApi

/-! ## Job ledger — `src/db/database.py` -/

/-- A row of the `jobs` table: `job_id, status, result_url, error_message`
(timestamps are managed by SQLite defaults/triggers and are not part of any
claim's observable, so they are omitted). -/
structure Job where
  job_id : String
  status : String
  result_url : Option String
  error_message : Option String
  deriving DecidableEq, Repr

/-- The `jobs` table, as the list of its rows (`job_id` is the primary key). -/
abbrev DB := List Job

/-- Python truthiness of the `result_url : Optional[str]` argument as tested by
`if result_url:` in `update_job_status`: `None` and the empty string are falsy. -/
def strTruthy : Option String → Bool
  | none => false
  | some s => s ≠ ""

/-- Embeds `update_job_status(job_id, status, result_url=None)` (database.py lines
124–144): one SQL `UPDATE` that unconditionally sets `status` (and `result_url`
when a truthy one is passed) on every row whose `job_id` matches.  There is no
check of the current status, no touch of `error_message`, and a `job_id` that
matches no row simply updates zero rows. -/
def update_job_status (db : DB) (job_id status : String)
    (result_url : Option String := none) : DB :=
  db.map fun j =>
    if j.job_id = job_id then
      if strTruthy result_url then
        { j with status := status, result_url := result_url }
      else
        { j with status := status }
    else j

/-- Projection used by `get_job_status`: the status of the row with the given
`job_id`, if any. -/
def jobStatus (db : DB) (job_id : String) : Option String :=
  (db.find? fun j => j.job_id = job_id).map Job.status

/-- The full row with the given `job_id`, if any. -/
def jobRow (db : DB) (job_id : String) : Option Job :=
  db.find? fun j => j.job_id = job_id

/-! ## Task bodies — `src/tasks/tasks.py`

Each task is modelled by the sequence of `update_job_status` calls it actually
executes, given the outcomes of its collaborators (generator, storage).  Two
call sites in `clone_voice_task` pass keyword arguments that
`update_job_status` does not accept (`metadata=` at line 110, `error_message=`
at line 119); in Python such a call raises `TypeError` at call time, before the
function body runs, so no ledger write happens there.  Likewise `tts` is an
unbound name in tasks.py (only `generate_tts` is imported from
`tts.fish_speech`), so line 101 raises `NameError` on every run. -/

/-- One executed `update_job_status(job_id, status, result_url)` write. -/
structure UpdateCall where
  status : String
  result_url : Option String
  deriving DecidableEq, Repr

/-- Statuses written by a trace of ledger writes, in execution order. -/
def traceStatuses (tr : List UpdateCall) : List String :=
  tr.map UpdateCall.status

/-- Replay a trace of writes for a given job against the ledger. -/
def applyTrace (db : DB) (job_id : String) (tr : List UpdateCall) : DB :=
  tr.foldl (fun d c => update_job_status d job_id c.status c.result_url) db

/-- Outcomes of the collaborators a single-media task (image / TTS) calls:
the generator either returns a local file path or raises, and `upload_file`
returns `Option String` (it never raises, see `upload_file` below). -/
structure MediaEnv where
  gen : Except String String
  upload : Option String
  deriving Repr

/-- Embeds `generate_image_task` (tasks.py lines 24–48) as its executed ledger writes:
on generator success the single write is `("completed", upload result)` — the
upload result is passed straight through, even when it is `None`; on a raised
exception the single write is `("failed", str(e))`, the error text going into
the `result_url` positional parameter. -/
def generate_image_task (env : MediaEnv) : List UpdateCall :=
  match env.gen with
  | .ok _ => [⟨"completed", env.upload⟩]
  | .error e => [⟨"failed", some e⟩]

/-- Embeds `generate_tts_task` (tasks.py lines 50–72): identical write structure to
`generate_image_task`. -/
def generate_tts_task (env : MediaEnv) : List UpdateCall :=
  match env.gen with
  | .ok _ => [⟨"completed", env.upload⟩]
  | .error e => [⟨"failed", some e⟩]

/-- Embeds `clone_voice_task` (tasks.py lines 91–120): it writes `processing`, then every
run raises `NameError` (unbound `tts`), and the `except` handler's
`update_job_status(..., error_message=str(e))` raises `TypeError` before any
write; even a hypothetical successful clone would hit the `metadata=` kwarg
`TypeError` at line 110 and then the same handler.  The executed writes are
therefore always exactly `[("processing", None)]`. -/
def clone_voice_task : List UpdateCall :=
  [⟨"processing", none⟩]

/-! ## Scene compositor — `src/video/editor.py`

`render_scene` is embedded with exactly the duration/control-flow content of
its Python body.  An `Element` carries the request fields the code reads
(`type`, `duration`, `width`, `height`) plus the intrinsic duration MoviePy
would report for its media file (`audioLen`, meaningful for audio elements) —
that value comes from the file on disk, i.e. from the environment.  A rendered
layer is reduced to the one attribute the claims are about: its assigned
duration (`None` until some `set_duration` call). -/

/-- The `element["type"]` strings the loop dispatches on; `video` stands for
any type string with no matching branch (the code has none for `"video"`). -/
inductive ElemType where
  | image
  | audio
  | text
  | video
  deriving DecidableEq, Repr

/-- A scene element, restricted to the fields `render_scene` reads that can
influence durations or control flow.  `duration = -1` is the "inherit"
sentinel, as in the JSON requests. -/
structure Element where
  etype : ElemType
  duration : ℚ := -1
  width : Int := -1
  height : Int := -1
  audioLen : ℚ := 0
  deriving DecidableEq, Repr

/-- A scene: `scene.get("duration", -1)` and its ordered elements. -/
structure Scene where
  duration : ℚ := -1
  elements : List Element
  deriving DecidableEq, Repr

/-- A rendered element layer, reduced to its assigned clip duration.
`none` models a MoviePy clip whose `duration` attribute is unset. -/
structure Clip where
  cduration : Option ℚ
  deriving DecidableEq, Repr

/-- The `scene_duration` after the type-dispatch part of one loop iteration:
inside the audio branch (editor.py lines 155–156), a still-unresolved scene
duration (`-1`) becomes the audio element's intrinsic length; nothing else
touches it. -/
def elemSceneDur (sd : ℚ) (e : Element) : ℚ :=
  match e.etype with
  | .audio => if sd = -1 then e.audioLen else sd
  | _ => sd

/-- The clip built by the type dispatch of editor.py lines 135–184, before the
duration assignment: `image`/`text` clips have no duration set
(resizing/styling do not set one); the audio branch (lines 158–165, where
`element_clip` is still `None` — it is reset at line 133 and the audio case is
an `elif`) always evaluates
`ImageClip(color=scene["background_color"], duration=audio_clip.duration)`,
and MoviePy's `ImageClip(img, ismask, transparent, fromalpha, duration)`
accepts no `color` keyword (solid-color frames are `ColorClip`), so this call
raises `TypeError` on every audio element (`.error`); an unhandled type leaves
`element_clip` as `None` (`.ok none`). -/
def elemClip0 (e : Element) : Except String (Option Clip) :=
  match e.etype with
  | .image => .ok (some ⟨none⟩)
  | .audio => .error "TypeError: ImageClip got an unexpected keyword argument color"
  | .text => .ok (some ⟨none⟩)
  | .video => .ok none

/-- One iteration of the `for element in scene["elements"]` loop (editor.py
lines 132–193): type dispatch first — the `scene_duration` resolution of lines
155–156 (`elemSceneDur`) executes before the clip construction, but a raise in
the construction (`elemClip0`, the audio branch's `TypeError`) aborts the
iteration, discarding that resolution with it.  Then the duration assignment
at lines 187–190: an explicit element duration is honored, otherwise a
resolved scene duration is inherited; either `set_duration` call on a `None`
clip raises `AttributeError` (`.error`).  A `None` clip that reaches line 192
is dropped (`if element_clip:`).  Returns the updated scene duration and the
element's layer, `none` when the element was dropped. -/
def processElement (sd : ℚ) (e : Element) : Except String (ℚ × Option Clip) :=
  let sd' : ℚ := elemSceneDur sd e
  match elemClip0 e with
  | .error m => .error m
  | .ok clip0 =>
    if e.duration ≠ -1 then
      match clip0 with
      | some _ => .ok (sd', some ⟨some e.duration⟩)
      | none => .error "AttributeError: NoneType has no attribute set_duration"
    else if sd' ≠ -1 then
      match clip0 with
      | some _ => .ok (sd', some ⟨some sd'⟩)
      | none => .error "AttributeError: NoneType has no attribute set_duration"
    else
      .ok (sd', clip0)

/-- The element loop of `render_scene`, threading `scene_duration` and keeping
each element paired with the layer it produced (`none` = dropped); the first
raised exception aborts the loop. -/
def renderElements (sd : ℚ) :
    List Element → Except String (ℚ × List (Element × Option Clip))
  | [] => .ok (sd, [])
  | e :: es =>
    match processElement sd e with
    | .error m => .error m
    | .ok (sd', c) =>
      match renderElements sd' es with
      | .error m => .error m
      | .ok (sdF, rest) => .ok (sdF, (e, c) :: rest)

/-- The rendered scene clip: its final duration and its layers. -/
structure SceneClip where
  sduration : Option ℚ
  layers : List Clip
  deriving DecidableEq, Repr

/-- MoviePy collaborator semantics for `CompositeVideoClip`: the composite's
duration is the maximum of its layers' durations when every layer has one,
else unset. -/
def compositeDuration (cs : List Clip) : Option ℚ :=
  cs.foldr
    (fun c acc =>
      match c.cduration, acc with
      | some d, some m => some (max d m)
      | _, _ => none)
    (some 0)

/-- Embeds `render_scene` (editor.py lines 108–213): run the element loop; any
exception is caught at line 211 and yields `None`.  If no layers were produced
the function falls through to `return None` (line 209); otherwise the layers
are composited and, when `scene_duration` was resolved (`≠ -1`), the scene
clip's duration is set to it (lines 196–207). -/
def render_scene (scene : Scene) : Option SceneClip :=
  match renderElements scene.duration scene.elements with
  | .error _ => none
  | .ok (sd, pairs) =>
    let clips := pairs.filterMap Prod.snd
    if clips.isEmpty then none
    else some ⟨if sd ≠ -1 then some sd else compositeDuration clips, clips⟩

/-- Environment for `create_video_from_scenes`: whether
`final_video.write_videofile` succeeds, and what the `upload_file` call
returns (it never raises, see `upload_file`). -/
structure VideoEnv where
  writeOk : Bool
  upload : Option String
  deriving Repr

/-- Embeds `create_video_from_scenes` (editor.py lines 28–106): render every scene,
keeping only the scenes whose `render_scene` returned a clip (`if scene_clip:`
at line 65); if none did, the `ValueError` of line 69 is raised and caught by
the catch-all at line 104, returning `None`; a failing `write_videofile` is
likewise caught to `None`; otherwise the function returns whatever
`upload_file` returned — including `None` when the upload failed. -/
def create_video_from_scenes (scenes : List Scene) (env : VideoEnv) :
    Option String :=
  let clips := scenes.filterMap render_scene
  if clips.isEmpty then none
  else if env.writeOk then env.upload
  else none

/-- Embeds `generate_video_task` (tasks.py lines 74–89) as its executed ledger
writes: `create_video_from_scenes` has a catch-all and cannot raise, so when
the request carries a `"scenes"` key (`scenes? = some _`) the single write is
always `("completed", video_url)` — even when `video_url` is `None`.  Only a
request without the key (`KeyError` at line 79) reaches the `except` branch,
which writes `("failed", str(e))`. -/
def generate_video_task (scenes? : Option (List Scene)) (env : VideoEnv) :
    List UpdateCall :=
  match scenes? with
  | some scenes => [⟨"completed", create_video_from_scenes scenes env⟩]
  | none => [⟨"failed", some "KeyError: scenes"⟩]

/-! ## Object store gateway — `src/storage/minio_client.py`

`MinioCredentials` is the process-wide credential cache; `get_minio_client` is
decorated with `functools.lru_cache(maxsize=1)` so its body — including the
freshness check — runs only while the memo is empty (the function takes no
arguments and never raises, so its first result, `None` included, is memoized
forever).  `upload_file` is decorated with tenacity
`retry(stop=stop_after_attempt(max_retries), wait=wait_exponential(...))`,
which re-calls the body only when the body raises. -/

/-- Value of `MINIO_CONFIG["credentials_cache_time"]` (config.py line 145). -/
def credentials_cache_time : ℚ := 3600

/-- Value of `MINIO_CONFIG["max_retries"]` (config.py line 139). -/
def max_retries : Nat := 3

/-- Default of `MINIO_CONFIG["bucket_name"]` (config.py line 132). -/
def bucket_name : String := "media-bucket"

/-- Value of `MINIO_CONFIG["public_url_base"]` (config.py line 136). -/
def public_url_base : String := "https://minio.ruanpiscitelli.com/api/v1"

/-- The `MinioCredentials` instance: the cached credential triple and its
`last_update` timestamp (0 at construction). -/
structure MinioCredentials where
  access_key : String := ""
  secret_key : String := ""
  session_token : String := ""
  last_update : ℚ := 0
  deriving DecidableEq, Repr

/-- Embeds `MinioCredentials.needs_update` (minio_client.py lines 25–27):
`(time.time() - self.last_update) > credentials_cache_time`. -/
def MinioCredentials.needs_update (c : MinioCredentials) (now : ℚ) : Bool :=
  now - c.last_update > credentials_cache_time

/-- A constructed MinIO client, identified by the credential snapshot it was
built from (endpoint/region are constants). -/
structure Client where
  access_key : String
  secret_key : String
  session_token : String
  deriving DecidableEq, Repr

/-- Outcome of the remote calls `get_minio_client`'s body makes: the
credential-issuer fetch (`update_credentials`) and the `list_buckets` probe. -/
structure ClientEnv where
  now : ℚ
  fetchOk : Bool
  fetchedAccess : String := ""
  fetchedSecret : String := ""
  fetchedToken : String := ""
  listBucketsOk : Bool := true
  deriving Repr

/-- Embeds `MinioCredentials.update_credentials` (lines 29–51): on a successful fetch
stores the new triple and sets `last_update := now`, returning `True`; on any
failure returns `False` leaving the cache untouched. -/
def update_credentials (env : ClientEnv) (c : MinioCredentials) :
    Bool × MinioCredentials :=
  if env.fetchOk then
    (true,
      { access_key := env.fetchedAccess
        secret_key := env.fetchedSecret
        session_token := env.fetchedToken
        last_update := env.now })
  else
    (false, c)

/-- Process-wide storage state: the shared `minio_credentials` instance plus
the `lru_cache` memo of `get_minio_client` (outer `none` = memo empty; the
memoized value is itself the `Optional[Minio]` the body returned). -/
structure GatewayState where
  creds : MinioCredentials
  clientCache : Option (Option Client) := none
  deriving DecidableEq, Repr

/-- Embeds `get_minio_client` (minio_client.py lines 56–83) together with its
`@lru_cache(maxsize=1)` decorator.  On a memo hit the body — freshness check
included — does not run and zero refreshes happen.  Otherwise the body runs:
if `needs_update` it calls `update_credentials` (a failed refresh raises
`RuntimeError`, caught at line 81, returning `None`); then builds the client
from the current credentials and probes `list_buckets` (a failing probe is
likewise caught to `None`).  The returned value is memoized either way.  The
third component counts the `update_credentials` calls performed. -/
def get_minio_client (env : ClientEnv) (st : GatewayState) :
    Option Client × GatewayState × Nat :=
  match st.clientCache with
  | some cached => (cached, st, 0)
  | none =>
    if st.creds.needs_update env.now then
      match update_credentials env st.creds with
      | (false, c') => (none, { creds := c', clientCache := some none }, 1)
      | (true, c') =>
        let cl : Client := ⟨c'.access_key, c'.secret_key, c'.session_token⟩
        if env.listBucketsOk then
          (some cl, { creds := c', clientCache := some (some cl) }, 1)
        else
          (none, { creds := c', clientCache := some none }, 1)
    else
      let cl : Client :=
        ⟨st.creds.access_key, st.creds.secret_key, st.creds.session_token⟩
      if env.listBucketsOk then
        (some cl, { st with clientCache := some (some cl) }, 0)
      else
        (none, { st with clientCache := some none }, 0)

/-- Embeds `build_public_url` (minio_client.py lines 146–150). -/
def build_public_url (object_name : String) : String :=
  public_url_base ++ "/" ++ bucket_name ++ "/" ++ object_name

/-- Whether `pat` occurs as a contiguous run inside `s` (naive scan). -/
def hasInfixSeq (pat : List Char) : List Char → Bool
  | [] => pat.isEmpty
  | c :: cs => pat.isPrefixOf (c :: cs) || hasInfixSeq pat cs

/-- Embeds the test `"token expired" in str(e).lower()` (line 141): whether the lowercased
error text contains the substring `"token expired"` (lowercasing applied
characterwise, which agrees with `str.lower` on the ASCII texts involved). -/
def token_expired_signal (msg : String) : Bool :=
  hasInfixSeq "token expired".data (msg.data.map Char.toLower)

/-- Collaborator outcomes for one attempt of `upload_file`'s body: whether
`get_minio_client()` returned a client, whether the local file exists, and the
outcome of `fput_object` (its error text on failure). -/
structure UploadAttemptEnv where
  clientAvailable : Bool
  fileExists : Bool := true
  fput : Except String Unit := .ok ()
  deriving Repr

/-- The `try` block of `upload_file` (lines 117–137): raises `RuntimeError`
when the client is unavailable, `FileNotFoundError` when the local file is
missing, propagates the `fput_object` error, and otherwise returns
`build_public_url(object_name)`.  The `.error` text is the `str(e)` the
handler sees. -/
def upload_try_body (env : UploadAttemptEnv) (file_path object_name : String) :
    Except String String :=
  if ¬env.clientAvailable then
    .error "Cliente MinIO não disponível"
  else if ¬env.fileExists then
    .error ("Arquivo não encontrado: " ++ file_path)
  else
    match env.fput with
    | .error m => .error m
    | .ok _ => .ok (build_public_url object_name)

/-- One full run of `upload_file`'s decorated body (lines 115–144): the
catch-all `except` converts every exception into a `None` return, first
resetting `minio_credentials.last_update` to 0 when the error text signals an
expired token.  Returns the `Optional[str]` result and the credential state
after the attempt. -/
def upload_file_once (env : UploadAttemptEnv) (file_path object_name : String)
    (cred : MinioCredentials) : Option String × MinioCredentials :=
  match upload_try_body env file_path object_name with
  | .ok url => (some url, cred)
  | .error m =>
    (none, if token_expired_signal m then { cred with last_update := 0 } else cred)

/-- The tenacity `retry(stop=stop_after_attempt(n), ...)` combinator: call the
body; a normal return ends the loop, a raised exception is retried until `n`
attempts have been made, after which it is re-raised.  The body threads a
state `σ` (mutations made before a raise persist) and receives the 0-based
attempt index; the result carries the final state and the number of attempts
made.  (The exponential wait times do not affect values and are not
modelled.) -/
def tenacityRun {σ α : Type} (body : Nat → σ → Except String α × σ) :
    Nat → Nat → σ → Except String α × σ × Nat
  | 0, done, s => (.error "stop_after_attempt(0): no attempt made", s, done)
  | 1, done, s =>
    let (r, s') := body done s
    (r, s', done + 1)
  | fuel + 2, done, s =>
    let (r, s') := body done s
    match r with
    | .ok a => (.ok a, s', done + 1)
    | .error _ => tenacityRun body (fuel + 1) (done + 1) s'

/-- Embeds `upload_file` (minio_client.py lines 107–144): the tenacity-decorated
body.  Because the body's catch-all never lets an exception escape, each
attempt returns normally (`Except.ok`).  `envs i` is the collaborator outcome
of attempt `i`; the result is the value the caller sees (an exception would be
`.error`), the final credential state and the number of attempts made. -/
def upload_file (envs : Nat → UploadAttemptEnv) (file_path object_name : String)
    (maxRetries : Nat) (cred : MinioCredentials) :
    Except String (Option String) × MinioCredentials × Nat :=
  tenacityRun
    (fun i c =>
      let (r, c') := upload_file_once (envs i) file_path object_name c
      (.ok r, c'))
    maxRetries 0 cred

/-! ## Theorems settling the claims -/

/-! ### C1 — terminal statuses and `update_job_status` -/

/-- A ledger holding one job already in the terminal status `completed`. -/
def dbC1 : DB := [⟨"j1", "completed", some "https://minio/ok.mp4", none⟩]

/-- C1 is false on the code: `update_job_status` has no terminal-state check.
On a job whose status is `completed`, a subsequent conflicting update call is
not a no-op — it overwrites both the status and the `result_url`. -/
theorem C1_counterexample :
    jobStatus dbC1 "j1" = some "completed" ∧
    jobStatus (update_job_status dbC1 "j1" "failed" (some "boom")) "j1"
      = some "failed" ∧
    (jobRow (update_job_status dbC1 "j1" "failed" (some "boom")) "j1").map
        Job.result_url = some (some "boom") := by
  decide

/-- C1 (amended): `update_job_status` is an unconditional overwrite.  Whatever
the job's current status — terminal included — every row matching the
`job_id` ends with the newly passed status (and the new `result_url` when a
truthy one is passed): of two conflicting update calls the *last* one sticks,
and the call is never an error. -/
theorem C1_update_always_overwrites (db : DB) (job_id status : String)
    (ru : Option String) (j : Job)
    (hj : j ∈ update_job_status db job_id status ru)
    (hid : j.job_id = job_id) :
    j.status = status ∧ (strTruthy ru = true → j.result_url = ru) := by
  unfold update_job_status at hj
  obtain ⟨j0, _, rfl⟩ := List.mem_map.1 hj
  by_cases h0 : j0.job_id = job_id
  · simp only [h0, if_true]
    by_cases ht : strTruthy ru
    · simp [ht]
    · simp only [ht, if_false]
      refine ⟨rfl, fun h => absurd h (by simp [ht])⟩
  · rw [if_neg h0] at hid
    exact absurd hid h0

/-- Witness for `C1_update_always_overwrites` at a concrete terminal job. -/
theorem C1_witness :
    (Job.mk "j1" "failed" (some "boom") none).status = "failed" ∧
    (Job.mk "j1" "failed" (some "boom") none).result_url = some "boom" := by
  have h := C1_update_always_overwrites dbC1 "j1" "failed" (some "boom")
    (Job.mk "j1" "failed" (some "boom") none) (by decide) rfl
  exact ⟨h.1, h.2 (by decide)⟩

/-! ### C2 — the `processing` transition -/

/-- A successful image-generation run. -/
def envC2 : MediaEnv := ⟨.ok "/tmp/img.png", some "https://minio/img.png"⟩

/-- C2 is false on the code: a successful `generate_image_task` writes the
terminal status `completed` as its only ledger update — `processing` is never
written, so the queued→processing transition is skipped. -/
theorem C2_counterexample :
    traceStatuses (generate_image_task envC2) = ["completed"] ∧
    "processing" ∉ traceStatuses (generate_image_task envC2) := by
  decide

/-- C2 (amended): only `clone_voice_task` performs the queued→processing
transition; the image, TTS and video tasks write exactly one terminal status
(`completed` or `failed`) without ever writing `processing`. -/
theorem C2_only_clone_writes_processing (env env' : MediaEnv)
    (scenes? : Option (List Scene)) (venv : VideoEnv) :
    "processing" ∉ traceStatuses (generate_image_task env) ∧
    "processing" ∉ traceStatuses (generate_tts_task env') ∧
    "processing" ∉ traceStatuses (generate_video_task scenes? venv) ∧
    (traceStatuses (generate_image_task env) = ["completed"] ∨
      traceStatuses (generate_image_task env) = ["failed"]) ∧
    traceStatuses clone_voice_task = ["processing"] := by
  refine ⟨?_, ?_, ?_, ?_, rfl⟩
  · cases h : env.gen <;> simp [generate_image_task, traceStatuses, h]
  · cases h : env'.gen <;> simp [generate_tts_task, traceStatuses, h]
  · cases scenes? <;> simp [generate_video_task, traceStatuses]
  · cases h : env.gen <;> simp [generate_image_task, traceStatuses, h]

/-! ### C3 — upload failure after successful generation -/

/-- A well-formed scene that renders successfully (one image, 3 s). -/
def sceneC3 : Scene := { duration := 3, elements := [{ etype := .image, duration := 3 }] }

/-- The ledger before the video task runs. -/
def dbC3 : DB := [⟨"j3", "queued", none, none⟩]

/-- C3's failing input evaluated on the code: the scenes render and the video
is written (`writeOk = true`), but the storage upload fails (`upload_file`
returns `None`).  `create_video_from_scenes` then returns `None` *without
raising*, so `generate_video_task` takes its success path and the job ends
`completed` with no `result_url` — not `failed` as the claim requires. -/
theorem C3_upload_failure_marks_completed :
    create_video_from_scenes [sceneC3] ⟨true, none⟩ = none ∧
    jobStatus
        (applyTrace dbC3 "j3" (generate_video_task (some [sceneC3]) ⟨true, none⟩))
        "j3" = some "completed" := by
  decide

/-! ### C4 — `result_url` / `error_message` on terminal transitions -/

/-- The ledger before the image task runs. -/
def dbC4 : DB := [⟨"j4", "queued", none, none⟩]

/-- C4's failing input evaluated on the code: when `generate_image_task` fails
with error text `"boom"`, the task calls `update_job_status(job_id, "failed",
str(e))`, whose third positional parameter is `result_url`.  The failed job
therefore ends with the error text in `result_url` and `error_message` still
`NULL` — the opposite of the claimed field discipline (`update_job_status`
cannot even write `error_message`: it has no such parameter). -/
theorem C4_error_text_stored_in_result_url :
    jobRow (applyTrace dbC4 "j4" (generate_image_task ⟨.error "boom", none⟩))
        "j4" = some ⟨"j4", "failed", some "boom", none⟩ := by
  decide

/-! ### C9 — update of an absent `job_id` -/

/-- A ledger that does not contain job `"ghost"`. -/
def dbC9 : DB := [⟨"a1", "queued", none, none⟩]

/-- C9 is false on the code: updating a `job_id` absent from the ledger is a
silent success — the `UPDATE` matches zero rows, the ledger is unchanged, and
no error of any kind is raised (no `JobNotFoundError` exists in the code). -/
theorem C9_counterexample :
    update_job_status dbC9 "ghost" "failed" (some "x") = dbC9 := by
  decide

/-- C9 (amended): `update_job_status` on a `job_id` matching no row succeeds
silently and leaves the ledger exactly as it was. -/
theorem C9_absent_id_silent_noop (db : DB) (job_id status : String)
    (ru : Option String) (habs : ∀ j ∈ db, j.job_id ≠ job_id) :
    update_job_status db job_id status ru = db := by
  unfold update_job_status
  induction db with
  | nil => rfl
  | cons j0 rest ih =>
    have h0 : j0.job_id ≠ job_id := habs j0 (List.mem_cons_self _ _)
    simp only [List.map_cons, if_neg h0, List.cons.injEq, true_and]
    exact ih fun j hj => habs j (List.mem_cons_of_mem _ hj)

/-- Witness for `C9_absent_id_silent_noop` at a concrete absent id. -/
theorem C9_witness :
    update_job_status dbC9 "ghost2" "completed" none = dbC9 :=
  C9_absent_id_silent_noop dbC9 "ghost2" "completed" none (by decide)

/-! ### C5 — upload retry discipline -/

/-- A backend that fails transiently on the first attempt (a connection reset)
and would succeed on every later one: the claim's `N = 1 < max_retries = 3`
scenario. -/
def envsC5 : Nat → UploadAttemptEnv := fun i =>
  if i = 0 then { clientAvailable := true, fput := .error "Connection reset by peer" }
  else { clientAvailable := true }

/-- Credential state before the upload. -/
def credC5 : MinioCredentials := { last_update := 50 }

/-- C5's failing input evaluated on the code: although the tenacity decorator
says `stop_after_attempt(max_retries)`, the body's catch-all `except` turns
every failure into a normal `None` return, so tenacity never sees an exception
and never retries.  With a backend that fails only on attempt 0 (attempt 1
would succeed — second conjunct), `upload_file` makes exactly one attempt and
returns `None`: no eventual success, no `max_retries` attempts, no permanent
`UploadError`. -/
theorem C5_no_retry_single_attempt :
    upload_file envsC5 "/tmp/v.mp4" "videos/j5.mp4" max_retries credC5
      = (.ok none, credC5, 1) ∧
    upload_try_body (envsC5 1) "/tmp/v.mp4" "videos/j5.mp4"
      = .ok (build_public_url "videos/j5.mp4") := by
  exact ⟨rfl, rfl⟩

/-! ### C6 — credential freshness before every gateway operation -/

/-- The client memoized by `lru_cache` on some earlier call. -/
def clientC6 : Client := ⟨"AK", "SK", "TOK"⟩

/-- Gateway state after forcing `minio_credentials.last_update = 0` while the
`lru_cache` memo of `get_minio_client` already holds a client. -/
def stC6 : GatewayState :=
  { creds := { access_key := "AK", secret_key := "SK", session_token := "TOK",
               last_update := 0 },
    clientCache := some (some clientC6) }

/-- An environment where a refresh would be available and the stale check
fires (`now - last_update = 7200 > 3600`). -/
def envC6 : ClientEnv :=
  { now := 7200, fetchOk := true, fetchedAccess := "NEW_AK",
    fetchedSecret := "NEW_SK", fetchedToken := "NEW_TOK", listBucketsOk := true }

/-- C6's failing input evaluated on the code: with `last_update` forced to 0
the credentials are stale (`needs_update` is true), yet the next gateway
operation performs **zero** credential refreshes — `@lru_cache(maxsize=1)`
returns the memoized client without running `get_minio_client`'s body, so the
freshness check at lines 62–65 never executes.  The claim's "exactly one
refresh before proceeding" fails. -/
theorem C6_cached_client_skips_refresh :
    stC6.creds.needs_update envC6.now = true ∧
    get_minio_client envC6 stC6 = (some clientC6, stC6, 0) := by
  refine ⟨?_, rfl⟩
  norm_num [MinioCredentials.needs_update, credentials_cache_time, stC6, envC6]

/-! ### C10 — `upload_file` never propagates an exception -/

/-- With a positive retry budget, `upload_file` performs exactly one attempt
and returns that attempt's value and state: the body's catch-all means
tenacity never retries and never re-raises. -/
theorem upload_file_one_attempt (envs : Nat → UploadAttemptEnv)
    (fp obj : String) (mr : Nat) (cred : MinioCredentials) (hmr : 0 < mr) :
    upload_file envs fp obj mr cred =
      (.ok (upload_file_once (envs 0) fp obj cred).1,
        (upload_file_once (envs 0) fp obj cred).2, 1) := by
  obtain _ | _ | k := mr
  · exact absurd hmr (lt_irrefl 0)
  · rfl
  · rfl

/-- C10: for every collaborator outcome, `upload_file` returns normally
(`Except.ok`) — no exception reaches the caller — and when the `try` body
fails for any internal reason the caller sees exactly `None`, with
`minio_credentials.last_update` reset to 0 precisely when the error text
carries the expired-token signal. -/
theorem C10_upload_never_raises (envs : Nat → UploadAttemptEnv)
    (fp obj : String) (mr : Nat) (cred : MinioCredentials) (hmr : 0 < mr) :
    upload_file envs fp obj mr cred =
      (.ok (upload_file_once (envs 0) fp obj cred).1,
        (upload_file_once (envs 0) fp obj cred).2, 1) ∧
    ∀ m, upload_try_body (envs 0) fp obj = .error m →
      (upload_file envs fp obj mr cred).1 = .ok none ∧
      (token_expired_signal m = true →
        (upload_file envs fp obj mr cred).2.1.last_update = 0) := by
  have key := upload_file_one_attempt envs fp obj mr cred hmr
  refine ⟨key, fun m hm => ?_⟩
  have h1 : upload_file_once (envs 0) fp obj cred =
      (none, if token_expired_signal m then { cred with last_update := 0 }
             else cred) := by
    unfold upload_file_once
    rw [hm]
  rw [key, h1]
  refine ⟨rfl, fun ht => ?_⟩
  simp [ht]

/-- A failing attempt whose error text carries the expired-token signal. -/
def envC10 : UploadAttemptEnv :=
  { clientAvailable := true, fput := .error "S3 operation failed: Token Expired" }

/-- Credential state before the upload. -/
def credC10 : MinioCredentials := { last_update := 500 }

/-- Witness for `C10_upload_never_raises`: an expired-token failure surfaces
as a `None` return (not an exception) and resets `last_update` to 0. -/
theorem C10_witness :
    (upload_file (fun _ => envC10) "/tmp/a.png" "images/a.png" 3 credC10).1
      = .ok none ∧
    (upload_file (fun _ => envC10) "/tmp/a.png" "images/a.png" 3 credC10).2.1.last_update
      = 0 := by
  have h := C10_upload_never_raises (fun _ => envC10) "/tmp/a.png" "images/a.png"
    3 credC10 (by decide)
  exact ⟨(h.2 "S3 operation failed: Token Expired" rfl).1,
    (h.2 "S3 operation failed: Token Expired" rfl).2 (by decide)⟩

/-! ### C8 — scenes with zero elements -/

/-- The image element of the spec example scene (no explicit duration). -/
def imgC7 : Element := { etype := .image }

/-- The 7.3 s audio element of the spec example scene (no explicit duration). -/
def audC7 : Element := { etype := .audio, audioLen := 73 / 10 }

/-- The spec example scene: auto duration, the image before the audio. -/
def sceneC7 : Scene := { duration := -1, elements := [imgC7, audC7] }

/-- Any scene containing an audio element fails to render: the element loop
raises before or at that element — at it, because the audio branch always
evaluates the invalid `ImageClip(color=..., duration=...)` call — and
`render_scene`'s catch-all turns the exception into `None`. -/
theorem render_scene_audio_always_fails (scene : Scene) (a : Element)
    (ha : a ∈ scene.elements) (hae : a.etype = ElemType.audio) :
    render_scene scene = none := by
  have key : ∀ (es : List Element), a ∈ es → ∀ sd : ℚ,
      ∃ m, renderElements sd es = .error m := by
    intro es
    induction es with
    | nil =>
      intro h
      exact absurd h (List.not_mem_nil a)
    | cons e es ih =>
      intro h sd
      rcases List.mem_cons.1 h with rfl | htail
      · have hclip : elemClip0 a
            = .error "TypeError: ImageClip got an unexpected keyword argument color" := by
          simp [elemClip0, hae]
        have hp : processElement sd a
            = .error "TypeError: ImageClip got an unexpected keyword argument color" := by
          simp only [processElement, hclip]
        exact ⟨"TypeError: ImageClip got an unexpected keyword argument color",
          by simp only [renderElements, hp]⟩
      · rcases hp : processElement sd e with m | p
        · exact ⟨m, by simp only [renderElements, hp]⟩
        · obtain ⟨sd', c⟩ := p
          obtain ⟨m, hm⟩ := ih htail sd'
          exact ⟨m, by simp only [renderElements, hp, hm]⟩
  obtain ⟨m, hm⟩ := key scene.elements ha scene.duration
  simp only [render_scene, hm]

/-- C7: the claimed auto-duration inference is unreachable in the code — the
audio branch raises `TypeError` on every audio element (editor.py line 163
passes a `color` keyword that MoviePy's `ImageClip` does not accept),
`render_scene` catches the exception and returns `None`, and
`create_video_from_scenes` then drops the scene.  Evaluated at the spec's own
example (auto-duration scene, one 7.3 s audio element plus one image element
without explicit duration): nothing renders at 7.3 s — the scene vanishes from
the video instead. -/
theorem C7_audio_scene_never_renders :
    processElement (-1) audC7
      = .error "TypeError: ImageClip got an unexpected keyword argument color" ∧
    render_scene sceneC7 = none ∧
    create_video_from_scenes [sceneC7] ⟨true, some "https://minio/v.mp4"⟩
      = none := by
  exact ⟨rfl, rfl, rfl⟩

end MidiaApi
